import Mathlib

/-
  A shallow embedding of the CandidCanvas animation library
  (src/lib/scene.js and src/lib/animator.js).

  Callbacks (scene elements, onstart / oncomplete handlers) are modelled as
  abstract identifiers of a type `α`; invoking a callback is recorded as an
  event in a trace rather than executed.  Scene objects are mutable and shared
  by reference in the source, so the animator state carries a heap (`store`)
  of scene records and all scene-valued fields hold store indices.
  JavaScript `undefined` / `null` values are modelled with `Option`; a thrown
  JavaScript exception is an `Option JsError` result component, and the state
  returned alongside it is the state at the moment of the throw (mutations
  performed before the throw persist, as in JavaScript).
-/

namespace CandidCanvas

/-- Runtime errors thrown by the library code. -/
inductive JsError where
  /-- `ReferenceError`: `clearCurrentScene` reads the undeclared identifier
      `current` (the closure variable is named `currentScene`). -/
  | refErrorCurrent
  /-- `TypeError`: a property access or method call on `undefined`. -/
  | typeErrorUndefined
  deriving Repr, DecidableEq

/-- An observable callback invocation.  Scene references are store indices. -/
inductive Event (α : Type) where
  /-- Element callback `f` invoked; the animator itself is passed as the
      argument (`elements[i](anim)` in `_runCurrentScene`). -/
  | elem (f : α)
  /-- Start handler `f` invoked with the scene `scene` as argument
      (`events[i](scene)` in `_callEvents`). -/
  | startH (f : α) (scene : Nat)
  /-- Completion handler `f` invoked with the scene `scene` as argument. -/
  | completeH (f : α) (scene : Nat)
  deriving Repr, DecidableEq

/-- Whether an event is an element-callback invocation. -/
def Event.isElem {α : Type} : Event α → Bool
  | .elem _ => true
  | _ => false

/-- Whether an event is a start-handler invocation. -/
def Event.isStart {α : Type} : Event α → Bool
  | .startH _ _ => true
  | _ => false

/-- Whether an event is a completion-handler invocation. -/
def Event.isComplete {α : Type} : Event α → Bool
  | .completeH _ _ => true
  | _ => false

/-- A Scene (src/lib/scene.js).  `elements` is the closure array behind the
    `elements()` accessor; `onstartEvents` / `oncompleteEvents` are the
    `_events["onstart"]` / `_events["oncomplete"]` handler arrays (an absent
    key is the empty list); `timeElapsed` is the closure variable behind the
    `timeElapsed()` accessor; `duration` is the closure variable behind the
    `duration()` accessor, `none` when it holds `undefined`. -/
structure Scene (α : Type) where
  elements : List α
  onstartEvents : List α
  oncompleteEvents : List α
  timeElapsed : Nat
  duration : Option Nat
  deriving Repr, DecidableEq

/-- Options hash accepted by `CandidCanvas.createScene`; `duration := none`
    models an absent (or explicitly `undefined`) `duration` key. -/
structure SceneOptions where
  duration : Option Nat
  deriving Repr, DecidableEq

/-- The initial value of the closure variable in `_initDuration`:
    `var duration = 0;`. -/
def initDurationValue : Option Nat := some 0

/-- The `duration(time)` accessor called with one argument: `duration = time`
    (no validation; the argument may be `undefined`). -/
def Scene.setDuration {α : Type} (s : Scene α) (t : Option Nat) : Scene α :=
  { s with duration := t }

/-- The `Scene` constructor: initializes `_events = {}`, the elements array,
    `timeElapsed = 0` and `duration = 0`, then unconditionally calls
    `this.duration(options.duration)`, overwriting the initial `0` with the
    option value (which is `undefined` when the option is absent). -/
def createScene {α : Type} (options : SceneOptions) : Scene α :=
  Scene.setDuration
    { elements := [], onstartEvents := [], oncompleteEvents := [],
      timeElapsed := 0, duration := initDurationValue }
    options.duration

/-- `addElement`: pushes a callback onto the elements array. -/
def Scene.addElement {α : Type} (s : Scene α) (f : α) : Scene α :=
  { s with elements := s.elements ++ [f] }

/-- `addElements`: calls `addElement` on each argument in order. -/
def Scene.addElements {α : Type} (s : Scene α) (fs : List α) : Scene α :=
  fs.foldl Scene.addElement s

/-- `clearElements`: empties the elements array. -/
def Scene.clearElements {α : Type} (s : Scene α) : Scene α :=
  { s with elements := [] }

/-- `onstart(func)` called WITH an argument: `_addEvent` appends the handler
    to `_events["onstart"]`. -/
def Scene.onstartAdd {α : Type} (s : Scene α) (f : α) : Scene α :=
  { s with onstartEvents := s.onstartEvents ++ [f] }

/-- `oncomplete(func)` called WITH an argument: appends to
    `_events["oncomplete"]`. -/
def Scene.oncompleteAdd {α : Type} (s : Scene α) (f : α) : Scene α :=
  { s with oncompleteEvents := s.oncompleteEvents ++ [f] }

/-- `onstart()` called with no argument: `_callEvents` invokes every handler
    in `_events["onstart"]` in registration order, passing the scene
    (here: its store reference `r`) as the argument. -/
def Scene.fireOnstart {α : Type} (s : Scene α) (r : Nat) : List (Event α) :=
  s.onstartEvents.map (fun f => Event.startH f r)

/-- `oncomplete()` called with no argument: invokes every handler in
    `_events["oncomplete"]` in registration order with the scene as argument. -/
def Scene.fireOncomplete {α : Type} (s : Scene α) (r : Nat) : List (Event α) :=
  s.oncompleteEvents.map (fun f => Event.completeH f r)

/-- `DEFAULT_FRAME_DURATION`: the fixed tick period, in milliseconds. -/
def DEFAULT_FRAME_DURATION : Nat := 25

/-- An Animator (src/lib/animator.js).  `store` is the heap of scene objects
    (a scene reference is an index into it); `scenes` is the closure array
    behind the `scenes()` accessor, holding references; `currentlyPlaying`,
    `looping`, `remainingScenes` and `playTimer` are the `_currentlyPlaying`,
    `_looping`, `_remainingScenes` and `_playTimer` expando properties, with
    `none` / `false` standing for a deleted (hence `undefined`, falsy)
    property; `currentScene` is the closure variable of `_initCurrentScene`
    (`none` for `null` or `undefined`).  `activeIntervals` is the host
    environment's set of live `setInterval` registrations and `nextTimer`
    its fresh-handle supply; they let the model state which tick sources are
    armed at any point. -/
structure Animator (α : Type) where
  store : List (Scene α)
  scenes : List Nat
  currentlyPlaying : Bool
  looping : Bool
  remainingScenes : Option (List Nat)
  currentScene : Option Nat
  playTimer : Option Nat
  activeIntervals : List Nat
  nextTimer : Nat
  deriving Repr, DecidableEq

/-- Options hash accepted by `play` / `loop`; `loop := false` models an
    absent (falsy) `loop` key. -/
structure PlayOptions where
  loop : Bool
  deriving Repr, DecidableEq

/-- `CandidCanvas.createAnimator` / the `Animator` constructor: empty scene
    list, no playback state, no timer. -/
def createAnimator (α : Type) : Animator α :=
  { store := [], scenes := [], currentlyPlaying := false, looping := false,
    remainingScenes := none, currentScene := none, playTimer := none,
    activeIntervals := [], nextTimer := 0 }

/-- Writes scene `s` through reference `r` (the scene objects are shared, so
    this is the one mutation point of the heap). -/
def setScene {α : Type} (a : Animator α) (r : Nat) (s : Scene α) : Animator α :=
  { a with store := a.store.set r s }

/-- `addScene`: allocates the scene object and pushes its reference onto the
    `scenes()` array. -/
def Animator.addScene {α : Type} (a : Animator α) (s : Scene α) : Animator α :=
  { a with store := a.store ++ [s], scenes := a.scenes ++ [a.store.length] }

/-- `clearInterval(h)`: cancels the registration named by the handle; a call
    with an `undefined` or stale handle is a no-op. -/
def clearIntervalOp {α : Type} (a : Animator α) (h : Option Nat) : Animator α :=
  match h with
  | none => a
  | some t => { a with activeIntervals := a.activeIntervals.erase t }

/-- `clearCurrentScene`: its first statement is `current.timeElapsed(0)`, but
    no identifier `current` is declared anywhere (the closure variable is
    named `currentScene`), so the statement throws a `ReferenceError` and the
    following `currentScene = null` is never reached.  The state is returned
    unchanged together with the thrown error. -/
def clearCurrentScene {α : Type} (a : Animator α) : Animator α × Option JsError :=
  (a, some JsError.refErrorCurrent)

/-- `_resetAnimator`: clears the interval, deletes `_currentlyPlaying`,
    `_looping`, `_playTimer` and `_remainingScenes`, then calls
    `clearCurrentScene()` (which throws after those deletions took effect). -/
def resetAnimator {α : Type} (a : Animator α) : Animator α × Option JsError :=
  let a1 := clearIntervalOp a a.playTimer
  let a2 := { a1 with currentlyPlaying := false, looping := false,
                      playTimer := none, remainingScenes := none }
  clearCurrentScene a2

/-- `Animator.prototype.reset`. -/
def Animator.reset {α : Type} (a : Animator α) : Animator α × Option JsError :=
  resetAnimator a

/-- `Animator.prototype.pause`: unconditionally sets
    `_currentlyPlaying = false` and clears the stored interval handle.
    Nothing else is touched; the stale handle itself stays stored. -/
def Animator.pause {α : Type} (a : Animator α) : Animator α :=
  clearIntervalOp { a with currentlyPlaying := false } a.playTimer

/-- `x || 0` on a number: `0` stays `0`, anything else is kept (so on a
    natural number the expression is the identity). -/
def jsOrZero (t : Nat) : Nat :=
  if t = 0 then 0 else t

/-- The short-circuit expression
    `anim.currentScene(anim.currentScene() || anim._remainingScenes.shift())`:
    when the current scene is present (truthy) `shift` is never evaluated;
    otherwise `shift` removes and returns the queue's front element
    (`undefined` on an empty array).  Returns the new current scene together
    with the queue after the possible shift. -/
def shiftIfAbsent (cur : Option Nat) (rs : List Nat) : Option Nat × List Nat :=
  match cur, rs with
  | some r, l => (some r, l)
  | none, r :: rest => (some r, rest)
  | none, [] => (none, [])

/-- `_initForPlay`: sets `_currentlyPlaying = true`,
    `_looping = _looping || options.loop`,
    `_remainingScenes = _remainingScenes || scenes().concat()` (note that an
    existing array is truthy even when empty), loads the current scene
    (shifting from the queue only when absent), then runs
    `currentScene.timeElapsed(currentScene.timeElapsed() || 0)` — which
    throws a `TypeError` when the loaded current scene is `undefined`
    (empty scene list on a fresh start). -/
def initForPlay {α : Type} (a : Animator α) (options : PlayOptions) :
    Animator α × Option JsError :=
  let a1 := { a with currentlyPlaying := true,
                     looping := a.looping || options.loop }
  let rs := a1.remainingScenes.getD a1.scenes
  let cr := shiftIfAbsent a1.currentScene rs
  let a2 := { a1 with remainingScenes := some cr.2, currentScene := cr.1 }
  match cr.1 with
  | none => (a2, some JsError.typeErrorUndefined)
  | some r =>
    match a2.store.get? r with
    | none => (a2, some JsError.typeErrorUndefined)
    | some s => (setScene a2 r { s with timeElapsed := jsOrZero s.timeElapsed }, none)

/-- The arming part of `_startFrameTimer`:
    `anim._playTimer = setInterval(tickBody, frameDuration)` registers a new
    periodic tick source and stores its handle. -/
def startFrameTimer {α : Type} (a : Animator α) : Animator α :=
  { a with playTimer := some a.nextTimer,
           activeIntervals := a.activeIntervals ++ [a.nextTimer],
           nextTimer := a.nextTimer + 1 }

/-- `Animator.prototype.play`: returns immediately when already playing;
    otherwise `_initForPlay` then (when it did not throw) `_startFrameTimer`. -/
def Animator.play {α : Type} (a : Animator α) (options : PlayOptions) :
    Animator α × Option JsError :=
  if a.currentlyPlaying then (a, none)
  else
    match initForPlay a options with
    | (a1, some e) => (a1, some e)
    | (a1, none) => (startFrameTimer a1, none)

/-- `Animator.prototype.loop`: sets `options.loop = true` and calls `play`. -/
def Animator.loop {α : Type} (a : Animator α) (options : PlayOptions) :
    Animator α × Option JsError :=
  a.play { options with loop := true }

/-- The guard `timeElapsedForCurrentScene < anim.currentScene().duration` of
    the tick body.  `duration` is read WITHOUT being invoked, so the
    right-hand side is the accessor function object itself, not the stored
    duration; for the relational comparison JavaScript coerces the function
    through `ToPrimitive`/`ToNumber` to `NaN`, and every comparison against
    `NaN` is `false`.  The guard therefore never holds, whatever the elapsed
    time and whatever duration the scene stores. -/
def stillRunningGuard (_timeElapsed : Nat) (_duration : Option Nat) : Bool :=
  false

/-- The iteration count of the element loop in `_runCurrentScene`:
    `var elements = scene.elements;` reads the accessor function without
    invoking it, and `elements.length` is then the function's declared arity
    — `0` for the zero-parameter accessor — so the loop body runs zero
    times. -/
def elementsAccessorArity : Nat := 0

/-- `_runCurrentScene`: reads the current scene; when its elapsed time is
    below `1` it fires the start handlers (`scene.onstart()`); then runs
    `for (i = 0; i < elements.length; i++) elements[i](anim)` — which,
    because `elements` here is the un-invoked accessor function with
    `length` equal to `elementsAccessorArity = 0`, invokes no element
    callback at all. -/
def runCurrentScene {α : Type} (a : Animator α) (r : Nat) :
    Animator α × List (Event α) × Option JsError :=
  match a.store.get? r with
  | none => (a, [], some JsError.typeErrorUndefined)
  | some s =>
    let startEvents := if s.timeElapsed < 1 then s.fireOnstart r else []
    (a, startEvents ++ (s.elements.take elementsAccessorArity).map Event.elem, none)

/-- The tick body from the point where `timeElapsedForCurrentScene` is read
    (the current scene is the reference `r`).  When `stillRunningGuard`
    held it would run `_runCurrentScene` and advance the elapsed time by the
    frame duration; since the guard is constantly false, every tick takes
    the other branch: fire the scene's completion handlers, reset its
    elapsed time to 0 and shift the next scene from `_remainingScenes`
    (`undefined` — absent — when the queue is empty). -/
def tickMain {α : Type} (a : Animator α) (r : Nat) :
    Animator α × List (Event α) × Option JsError :=
  match a.store.get? r with
  | none => (a, [], some JsError.typeErrorUndefined)
  | some s =>
    let t := s.timeElapsed
    if stillRunningGuard t s.duration then
      match runCurrentScene a r with
      | (a1, tr, some e) => (a1, tr, some e)
      | (a1, tr, none) =>
        match a1.store.get? r with
        | none => (a1, tr, some JsError.typeErrorUndefined)
        | some s1 =>
          (setScene a1 r { s1 with timeElapsed := t + DEFAULT_FRAME_DURATION },
           tr, none)
    else
      let tr := s.fireOncomplete r
      let a1 := setScene a r { s with timeElapsed := 0 }
      match a1.remainingScenes with
      | none => (a1, tr, some JsError.typeErrorUndefined)
      | some [] => ({ a1 with remainingScenes := some [],
                              currentScene := none }, tr, none)
      | some (r2 :: rest) => ({ a1 with remainingScenes := some rest,
                                        currentScene := some r2 }, tr, none)

/-- One invocation of the `setInterval` callback installed by
    `_startFrameTimer`.  Step one: when the current scene is absent, either
    reload the whole scene list (looping) — `shift` on the fresh copy throws
    a `TypeError` downstream when the scene list is empty, at
    `anim.currentScene().timeElapsed(0)` — or, when not looping, run
    `_resetAnimator` (which clears the interval, deletes the playback state
    and then throws out of `clearCurrentScene`) and return.  Otherwise fall
    through to the main body on the (possibly just reloaded) current scene. -/
def tick {α : Type} (a : Animator α) : Animator α × List (Event α) × Option JsError :=
  match a.currentScene with
  | some r => tickMain a r
  | none =>
    if a.looping then
      match a.scenes with
      | [] =>
        ({ a with remainingScenes := some [], currentScene := none },
         [], some JsError.typeErrorUndefined)
      | r :: rest =>
        let a1 := { a with remainingScenes := some rest, currentScene := some r }
        match a1.store.get? r with
        | none => (a1, [], some JsError.typeErrorUndefined)
        | some s => tickMain (setScene a1 r { s with timeElapsed := 0 }) r
    else
      match resetAnimator a with
      | (a1, e) => (a1, [], e)

/-- Runs the periodic tick source for up to `n` ticks: the host keeps
    invoking the callback while (and only while) an interval registration is
    live.  Accumulates the emitted events. -/
def runTicks {α : Type} : Nat → Animator α → Animator α × List (Event α)
  | 0, a => (a, [])
  | n + 1, a =>
    if a.activeIntervals = [] then (a, [])
    else
      match tick a with
      | (a1, tr, _) =>
        match runTicks n a1 with
        | (a2, tr2) => (a2, tr ++ tr2)

/-- The operations a consumer (plus the tick source) can perform on an
    animator. -/
inductive Op (α : Type) where
  | play (options : PlayOptions)
  | loop (options : PlayOptions)
  | pause
  | reset
  | tick
  | addScene (s : Scene α)
  deriving Repr, DecidableEq

/-- Whether an operation belongs to playback (everything except scene
    registration). -/
def Op.isPlayback {α : Type} : Op α → Bool
  | .addScene _ => false
  | _ => true

/-- Applies one operation.  A thrown exception propagates to the operation's
    caller; the state at the throw persists (JavaScript has no rollback), so
    only the state component is kept here.  A tick fires only while an
    interval registration is live. -/
def applyOp {α : Type} (a : Animator α) : Op α → Animator α
  | .play o => (a.play o).1
  | .loop o => (a.loop o).1
  | .pause => a.pause
  | .reset => (a.reset).1
  | .tick => if a.activeIntervals = [] then a else (tick a).1
  | .addScene s => a.addScene s

/-- Applies a sequence of operations in order. -/
def applyOps {α : Type} (a : Animator α) (ops : List (Op α)) : Animator α :=
  ops.foldl applyOp a

/-! ### Helper lemmas -/

lemma jsOrZero_eq (t : Nat) : jsOrZero t = t := by
  unfold jsOrZero; split <;> omega

lemma set_self_of_get? {γ : Type} : ∀ (l : List γ) (n : Nat) (x : γ),
    l.get? n = some x → l.set n x = l
  | [], n, x, h => by simp [List.get?] at h
  | a :: t, 0, x, h => by
      simp only [List.get?, Option.some.injEq] at h
      simp [List.set, h]
  | a :: t, n + 1, x, h => by
      simp only [List.get?] at h
      simp [List.set, set_self_of_get? t n x h]

lemma initForPlay_frame {α : Type} (a : Animator α) (o : PlayOptions) :
    ((initForPlay a o).1.scenes = a.scenes)
    ∧ ((initForPlay a o).1.store.length = a.store.length)
    ∧ ((initForPlay a o).1.activeIntervals = a.activeIntervals)
    ∧ ((initForPlay a o).1.playTimer = a.playTimer)
    ∧ ((initForPlay a o).1.nextTimer = a.nextTimer)
    ∧ ((initForPlay a o).1.currentlyPlaying = true)
    ∧ ((initForPlay a o).1.looping = (a.looping || o.loop)) := by
  simp only [initForPlay]
  split <;> try split
  all_goals simp_all [setScene]

lemma runCurrentScene_state {α : Type} (a : Animator α) (r : Nat) :
    (runCurrentScene a r).1 = a := by
  simp only [runCurrentScene]
  split <;> rfl

lemma tickMain_frame {α : Type} (a : Animator α) (r : Nat) :
    ((tickMain a r).1.scenes = a.scenes)
    ∧ ((tickMain a r).1.store.length = a.store.length)
    ∧ ((tickMain a r).1.activeIntervals = a.activeIntervals)
    ∧ ((tickMain a r).1.playTimer = a.playTimer)
    ∧ ((tickMain a r).1.nextTimer = a.nextTimer)
    ∧ ((tickMain a r).1.currentlyPlaying = a.currentlyPlaying)
    ∧ ((tickMain a r).1.looping = a.looping) := by
  simp only [tickMain, stillRunningGuard]
  split <;> try split
  all_goals try split
  all_goals simp_all [setScene]

lemma clearIntervalOp_frame {α : Type} (a : Animator α) (h : Option Nat) :
    ((clearIntervalOp a h).scenes = a.scenes)
    ∧ ((clearIntervalOp a h).store = a.store)
    ∧ ((clearIntervalOp a h).playTimer = a.playTimer)
    ∧ ((clearIntervalOp a h).nextTimer = a.nextTimer)
    ∧ ((clearIntervalOp a h).currentlyPlaying = a.currentlyPlaying)
    ∧ ((clearIntervalOp a h).looping = a.looping)
    ∧ ((clearIntervalOp a h).remainingScenes = a.remainingScenes)
    ∧ ((clearIntervalOp a h).currentScene = a.currentScene) := by
  unfold clearIntervalOp
  split <;> simp

lemma resetAnimator_state {α : Type} (a : Animator α) :
    (resetAnimator a).1 =
      { clearIntervalOp a a.playTimer with
        currentlyPlaying := false, looping := false,
        playTimer := none, remainingScenes := none }
    ∧ (resetAnimator a).2 = some JsError.refErrorCurrent := by
  constructor <;> rfl

/-- The invariant that guarantees at-most-one live tick source: while not
    playing no interval registration is live, never more than one is live,
    and a live one is the stored handle. -/
def TimerInv {α : Type} (a : Animator α) : Prop :=
  a.activeIntervals.length ≤ 1
  ∧ (a.currentlyPlaying = false → a.activeIntervals = [])
  ∧ (∀ t, a.activeIntervals = [t] → a.playTimer = some t)

lemma timerInv_of_frame {α : Type} {a b : Animator α} (h : TimerInv a)
    (e1 : b.activeIntervals = a.activeIntervals)
    (e2 : b.playTimer = a.playTimer)
    (e3 : b.currentlyPlaying = a.currentlyPlaying) : TimerInv b := by
  obtain ⟨h1, h2, h3⟩ := h
  refine ⟨by rw [e1]; exact h1, by rw [e1, e3]; exact h2, fun t ht => ?_⟩
  rw [e2]; exact h3 t (by rw [← e1]; exact ht)

lemma length_le_one_cases (l : List Nat) (h : l.length ≤ 1) :
    l = [] ∨ ∃ t, l = [t] := by
  match l with
  | [] => exact Or.inl rfl
  | [t] => exact Or.inr ⟨t, rfl⟩
  | a :: b :: rest => simp at h

lemma timerInv_cleared {α : Type} (a : Animator α) (h : TimerInv a) :
    (clearIntervalOp a a.playTimer).activeIntervals = [] := by
  obtain ⟨h1, _, h3⟩ := h
  rcases length_le_one_cases a.activeIntervals h1 with he | ⟨t, ht⟩
  · unfold clearIntervalOp
    split <;> simp [he]
  · have hp := h3 t ht
    unfold clearIntervalOp
    rw [hp]
    simp [ht, List.erase]

lemma timerInv_resetAnimator {α : Type} (a : Animator α) (h : TimerInv a) :
    TimerInv (resetAnimator a).1 := by
  rw [(resetAnimator_state a).1]
  have he := timerInv_cleared a h
  exact ⟨by simp [he], fun _ => by simp [he], fun t ht => by simp [he] at ht⟩

lemma timerInv_play {α : Type} (a : Animator α) (o : PlayOptions)
    (h : TimerInv a) : TimerInv (a.play o).1 := by
  unfold Animator.play
  rcases hp : a.currentlyPlaying
  · have he : a.activeIntervals = [] := h.2.1 hp
    obtain ⟨_, _, f3, f4, _, f6, _⟩ := initForPlay_frame a o
    rcases hi : initForPlay a o with ⟨a1, e⟩
    rw [hi] at f3 f4 f6
    dsimp only at f3 f4 f6
    cases e with
    | none =>
      simp only [Bool.false_eq_true, if_false]
      refine ⟨?_, ?_, ?_⟩ <;> simp [startFrameTimer, f3, f4, f6, he]
    | some err =>
      simp only [Bool.false_eq_true, if_false]
      exact ⟨by simp [f3, he], fun _ => by simp [f3, he],
             fun t ht => by rw [f3, he] at ht; simp at ht⟩
  · simpa using h

lemma pause_intervals {α : Type} (a : Animator α) (h : TimerInv a) :
    a.pause.activeIntervals = [] := by
  unfold Animator.pause clearIntervalOp
  obtain ⟨h1, _, h3⟩ := h
  rcases length_le_one_cases a.activeIntervals h1 with hl | ⟨t, ht⟩
  · split <;> simp [hl]
  · rw [h3 t ht]
    simp [ht, List.erase]

lemma timerInv_pause {α : Type} (a : Animator α) (h : TimerInv a) :
    TimerInv a.pause := by
  have he := pause_intervals a h
  exact ⟨by simp [he], fun _ => he, fun t ht => by rw [he] at ht; simp at ht⟩

lemma timerInv_tickMain {α : Type} (a : Animator α) (r : Nat)
    (h : TimerInv a) : TimerInv (tickMain a r).1 := by
  obtain ⟨_, _, f3, f4, _, f6, _⟩ := tickMain_frame a r
  exact timerInv_of_frame h f3 f4 f6

lemma timerInv_tick {α : Type} (a : Animator α) (h : TimerInv a) :
    TimerInv (tick a).1 := by
  unfold tick
  rcases hc : a.currentScene with _ | r
  · rcases hl : a.looping
    · simp only [Bool.false_eq_true, if_false]
      rcases hr : resetAnimator a with ⟨a1, e⟩
      have hi := timerInv_resetAnimator a h
      rw [hr] at hi
      exact hi
    · simp only [if_true]
      split
      · exact timerInv_of_frame h rfl rfl rfl
      · split
        · exact timerInv_of_frame h rfl rfl rfl
        · exact timerInv_tickMain _ _ (timerInv_of_frame h rfl rfl rfl)
  · exact timerInv_tickMain a r h

lemma timerInv_applyOp {α : Type} (a : Animator α) (op : Op α)
    (h : TimerInv a) : TimerInv (applyOp a op) := by
  cases op with
  | play o => exact timerInv_play a o h
  | loop o => exact timerInv_play a _ h
  | pause => exact timerInv_pause a h
  | reset => exact timerInv_resetAnimator a h
  | tick =>
    simp only [applyOp]
    split
    · exact h
    · exact timerInv_tick a h
  | addScene s => exact timerInv_of_frame h rfl rfl rfl

lemma timerInv_applyOps {α : Type} (ops : List (Op α)) (a : Animator α)
    (h : TimerInv a) : TimerInv (applyOps a ops) := by
  induction ops generalizing a with
  | nil => exact h
  | cons op rest ih => exact ih (applyOp a op) (timerInv_applyOp a op h)

lemma timerInv_createAnimator (α : Type) : TimerInv (createAnimator α) :=
  ⟨by simp [createAnimator], fun _ => rfl,
   fun t ht => by simp [createAnimator] at ht⟩

lemma looping_play {α : Type} (a : Animator α) (o : PlayOptions)
    (h : a.looping = true) : ((a.play o).1).looping = true := by
  unfold Animator.play
  rcases hp : a.currentlyPlaying
  · obtain ⟨_, _, _, _, _, _, f7⟩ := initForPlay_frame a o
    rcases hi : initForPlay a o with ⟨a1, e⟩
    rw [hi] at f7
    dsimp only at f7
    cases e with
    | none =>
      simp only [Bool.false_eq_true, if_false]
      simp [startFrameTimer, f7, h]
    | some err =>
      simp only [Bool.false_eq_true, if_false]
      simp [f7, h]
  · simpa using h

lemma looping_tick {α : Type} (a : Animator α) (h : a.looping = true) :
    ((tick a).1).looping = true := by
  unfold tick
  rcases hc : a.currentScene with _ | r
  · rw [h]
    simp only [if_true]
    split
    · simp
    · split
      · simp
      · rw [(tickMain_frame _ _).2.2.2.2.2.2]
        simp [setScene]
  · rw [(tickMain_frame _ _).2.2.2.2.2.2]
    exact h

lemma looping_applyOp {α : Type} (a : Animator α) (op : Op α)
    (h : a.looping = true) (hnr : op ≠ Op.reset) :
    (applyOp a op).looping = true := by
  cases op with
  | play o => exact looping_play a o h
  | loop o => exact looping_play a _ h
  | pause =>
    show (clearIntervalOp _ _).looping = true
    rw [(clearIntervalOp_frame _ _).2.2.2.2.2.1]
    exact h
  | reset => exact absurd rfl hnr
  | tick =>
    simp only [applyOp]
    split
    · exact h
    · exact looping_tick a h
  | addScene s => exact h

lemma looping_applyOps {α : Type} (ops : List (Op α)) (a : Animator α)
    (h : a.looping = true) (hnr : ∀ o ∈ ops, o ≠ Op.reset) :
    (applyOps a ops).looping = true := by
  induction ops generalizing a with
  | nil => exact h
  | cons op rest ih =>
    exact ih (applyOp a op)
      (looping_applyOp a op h (hnr op (List.mem_cons_self op rest)))
      (fun o ho => hnr o (List.mem_cons_of_mem op ho))

lemma playback_play {α : Type} (a : Animator α) (o : PlayOptions) :
    ((a.play o).1.scenes = a.scenes)
    ∧ ((a.play o).1.store.length = a.store.length) := by
  unfold Animator.play
  rcases hp : a.currentlyPlaying
  · obtain ⟨f1, f2, _⟩ := initForPlay_frame a o
    rcases hi : initForPlay a o with ⟨a1, e⟩
    rw [hi] at f1 f2
    dsimp only at f1 f2
    cases e with
    | none =>
      simp only [Bool.false_eq_true, if_false]
      exact ⟨f1, f2⟩
    | some err =>
      simp only [Bool.false_eq_true, if_false]
      exact ⟨f1, f2⟩
  · simp

lemma playback_pause {α : Type} (a : Animator α) :
    (a.pause.scenes = a.scenes)
    ∧ (a.pause.store.length = a.store.length) := by
  unfold Animator.pause
  have h := clearIntervalOp_frame { a with currentlyPlaying := false } a.playTimer
  exact ⟨h.1, by rw [h.2.1]⟩

lemma playback_reset {α : Type} (a : Animator α) :
    ((a.reset).1.scenes = a.scenes)
    ∧ ((a.reset).1.store.length = a.store.length) := by
  show ((resetAnimator a).1.scenes = a.scenes)
    ∧ ((resetAnimator a).1.store.length = a.store.length)
  rw [(resetAnimator_state a).1]
  have h := clearIntervalOp_frame a a.playTimer
  exact ⟨h.1, by rw [show ({ clearIntervalOp a a.playTimer with
    currentlyPlaying := false, looping := false, playTimer := none,
    remainingScenes := none } : Animator α).store
      = (clearIntervalOp a a.playTimer).store from rfl, h.2.1]⟩

lemma playback_tick {α : Type} (a : Animator α) :
    ((tick a).1.scenes = a.scenes)
    ∧ ((tick a).1.store.length = a.store.length) := by
  unfold tick
  rcases hc : a.currentScene with _ | r
  · rcases hl : a.looping
    · simp only [Bool.false_eq_true, if_false]
      rcases hr : resetAnimator a with ⟨a1, e⟩
      have hp := playback_reset a
      unfold Animator.reset at hp
      rw [hr] at hp
      exact hp
    · simp only [if_true]
      split
      · exact ⟨rfl, rfl⟩
      · split
        · exact ⟨rfl, rfl⟩
        · refine ⟨?_, ?_⟩
          · rw [(tickMain_frame _ _).1]
            simp [setScene]
          · rw [(tickMain_frame _ _).2.1]
            simp [setScene]
  · exact ⟨(tickMain_frame a r).1, (tickMain_frame a r).2.1⟩

lemma playback_applyOp {α : Type} (a : Animator α) (op : Op α)
    (hpb : op.isPlayback = true) :
    ((applyOp a op).scenes = a.scenes)
    ∧ ((applyOp a op).store.length = a.store.length) := by
  cases op with
  | play o => exact playback_play a o
  | loop o => exact playback_play a _
  | pause => exact playback_pause a
  | reset => exact playback_reset a
  | tick =>
    simp only [applyOp]
    split
    · exact ⟨rfl, rfl⟩
    · exact playback_tick a
  | addScene s => simp [Op.isPlayback] at hpb

lemma playback_applyOps {α : Type} (ops : List (Op α)) (a : Animator α)
    (hpb : ∀ o ∈ ops, o.isPlayback = true) :
    ((applyOps a ops).scenes = a.scenes)
    ∧ ((applyOps a ops).store.length = a.store.length) := by
  induction ops generalizing a with
  | nil => exact ⟨rfl, rfl⟩
  | cons op rest ih =>
    have h1 := playback_applyOp a op (hpb op (List.mem_cons_self op rest))
    have h2 := ih (applyOp a op) (fun o ho => hpb o (List.mem_cons_of_mem op ho))
    exact ⟨h2.1.trans h1.1, h2.2.trans h1.2⟩

/-! ### Concrete states used by the claim theorems -/

/-- A demonstration scene: element callbacks `1` and `2`, a start handler
    `5`, a completion handler `7`, duration `100`. -/
def demoScene : Scene Nat :=
  ((((createScene ⟨some 100⟩).addElement 1).addElement 2).onstartAdd 5).oncompleteAdd 7

/-- An animator holding `demoScene` (store reference 0). -/
def demoAnimator : Animator Nat :=
  (createAnimator Nat).addScene demoScene

/-- `demoAnimator` right after `play()`: tick source armed, current scene
    loaded with elapsed time 0, tick period 25. -/
def demoPlaying : Animator Nat :=
  (demoAnimator.play ⟨false⟩).1

/-- `demoAnimator` right after `loop()`: like `demoPlaying` but with the
    looping flag set. -/
def demoLooping : Animator Nat :=
  (demoAnimator.loop ⟨false⟩).1

/-! ### Claim theorems -/

/-- C1.  The claim says a tick with elapsed time `e` below the duration `d`
    runs a frame and advances `e` by the tick period, and only a tick with
    `e ≥ d` fires the completion handlers — so a scene of duration 100 at
    tick period 25 completes on the tick after 4 frame ticks.  The code
    instead compares the elapsed time against the un-invoked `duration`
    accessor function (`stillRunningGuard`, constantly false), so the very
    first tick — elapsed 0, duration 100 — already fires the completion
    handler, resets the elapsed time to 0 and leaves no current scene. -/
theorem c1_first_tick_completes_despite_elapsed_lt_duration :
    ((demoPlaying.store.get? 0).map Scene.timeElapsed = some 0)
    ∧ ((demoPlaying.store.get? 0).map Scene.duration = some (some 100))
    ∧ (∀ (t : Nat) (d : Option Nat), stillRunningGuard t d = false)
    ∧ ((tick demoPlaying).2.1 = [Event.completeH 7 0])
    ∧ ((tick demoPlaying).1.currentScene = none)
    ∧ (((tick demoPlaying).1.store.get? 0).map Scene.timeElapsed = some 0) := by
  exact ⟨by decide, by decide, fun _ _ => rfl, by decide, by decide, by decide⟩

/-- C2.  The claim says that on a tick where the current scene is still
    running (elapsed below duration) every element callback runs in order.
    In the code no element callback ever runs: the broken running guard
    routes every tick to the completion branch, and even `_runCurrentScene`
    itself iterates `elementsAccessorArity = 0` times because it reads
    `scene.elements` without invoking the accessor.  On the first tick of
    `demoPlaying` (elapsed 0 < duration 100, elements `[1, 2]`) no element
    event is emitted, nor during the entire run. -/
theorem c2_element_callbacks_never_invoked :
    (demoScene.elements = [1, 2])
    ∧ ((tick demoPlaying).2.1.filter Event.isElem = [])
    ∧ ((runTicks 8 demoPlaying).2.filter Event.isElem = [])
    ∧ (∀ (s : Scene Nat),
        ((s.elements.take elementsAccessorArity).map Event.elem : List (Event Nat)) = []) := by
  exact ⟨by decide, by decide, by decide, fun s => rfl⟩

/-- C3.  The claim says `reset()` never raises and leaves the scheduler
    observationally fresh.  `_resetAnimator` ends in `clearCurrentScene`,
    whose first statement reads the undeclared identifier `current`, so every
    `reset()` — from any state — throws a `ReferenceError`; moreover, when a
    current scene was loaded it is NOT cleared, because the
    `currentScene = null` assignment is unreachable. -/
theorem c3_reset_always_throws :
    (((createAnimator Nat).reset).2 = some JsError.refErrorCurrent)
    ∧ ((demoPlaying.reset).2 = some JsError.refErrorCurrent)
    ∧ ((demoPlaying.reset).1.currentScene = some 0)
    ∧ (∀ (a : Animator Nat), (a.reset).2 = some JsError.refErrorCurrent) := by
  exact ⟨by decide, by decide, by decide, fun a => (resetAnimator_state a).2⟩

/-- C4.  The claim orders events within a traversal: completion exactly once,
    strictly after the scene's start handlers fired.  In the code the only
    call site of `scene.onstart()` sits behind the constantly-false running
    guard, so start handlers never fire at all, while the completion
    handlers fire on the scene's first tick: the complete run of
    `demoPlaying` emits exactly one completion event and no start event,
    although the scene has the registered start handler `5`. -/
theorem c4_completion_fires_without_start :
    (demoScene.onstartEvents = [5])
    ∧ ((runTicks 8 demoPlaying).2 = [Event.completeH 7 0])
    ∧ ((runTicks 8 demoPlaying).2.filter Event.isStart = []) := by
  exact ⟨by decide, by decide, by decide⟩

/-- C5.  `pause()` while playing clears the playing flag and cancels the
    armed interval, but leaves the current scene, the remaining-scene queue,
    the whole scene heap (hence every scene's elapsed time) and the looping
    flag untouched; a subsequent `play()` then resumes without error, with
    the identical current scene, queue, heap and looping flag — in
    particular at the exact prior elapsed time, not 0. -/
theorem c5_pause_retains_state_play_resumes
    (a : Animator Nat) (r hdl : Nat) (s : Scene Nat) (rs : List Nat)
    (hp : a.currentlyPlaying = true)
    (hc : a.currentScene = some r)
    (hs : a.store.get? r = some s)
    (hr : a.remainingScenes = some rs)
    (ht : a.playTimer = some hdl)
    (hn : a.activeIntervals.Nodup) :
    (a.pause.currentlyPlaying = false)
    ∧ (hdl ∉ a.pause.activeIntervals)
    ∧ (a.pause.currentScene = some r)
    ∧ (a.pause.remainingScenes = some rs)
    ∧ (a.pause.store = a.store)
    ∧ (a.pause.looping = a.looping)
    ∧ ((a.pause.play ⟨false⟩).2 = none)
    ∧ ((a.pause.play ⟨false⟩).1.currentlyPlaying = true)
    ∧ ((a.pause.play ⟨false⟩).1.currentScene = some r)
    ∧ ((a.pause.play ⟨false⟩).1.remainingScenes = some rs)
    ∧ ((a.pause.play ⟨false⟩).1.store = a.store)
    ∧ ((a.pause.play ⟨false⟩).1.looping = a.looping) := by
  have hset := set_self_of_get? a.store r s hs
  have hs2 : a.store[r]? = some s := by
    rw [← List.get?_eq_getElem?]
    exact hs
  refine ⟨?_, ?_, ?_, ?_, ?_, ?_, ?_, ?_, ?_, ?_, ?_, ?_⟩ <;>
    simp [Animator.pause, clearIntervalOp, Animator.play, initForPlay,
          shiftIfAbsent, startFrameTimer, setScene, jsOrZero_eq,
          ht, hc, hr, hs, hs2, hset, hn.not_mem_erase]

/-- Witness for C5: the one-scene animator `demoPlaying`, paused and then
    resumed, keeps current scene 0, the empty queue, the heap and the
    looping flag, and the old interval handle 0 is no longer live. -/
theorem c5_witness :
    (demoPlaying.pause.currentlyPlaying = false)
    ∧ (0 ∉ demoPlaying.pause.activeIntervals)
    ∧ (demoPlaying.pause.currentScene = some 0)
    ∧ (demoPlaying.pause.remainingScenes = some [])
    ∧ (demoPlaying.pause.store = demoPlaying.store)
    ∧ (demoPlaying.pause.looping = demoPlaying.looping)
    ∧ ((demoPlaying.pause.play ⟨false⟩).2 = none)
    ∧ ((demoPlaying.pause.play ⟨false⟩).1.currentlyPlaying = true)
    ∧ ((demoPlaying.pause.play ⟨false⟩).1.currentScene = some 0)
    ∧ ((demoPlaying.pause.play ⟨false⟩).1.remainingScenes = some [])
    ∧ ((demoPlaying.pause.play ⟨false⟩).1.store = demoPlaying.store)
    ∧ ((demoPlaying.pause.play ⟨false⟩).1.looping = demoPlaying.looping) :=
  c5_pause_retains_state_play_resumes demoPlaying 0 0 demoScene []
    (by decide) (by decide) (by decide) (by decide) (by decide) (by decide)

/-- C6.  `play()` while already playing is a no-op — it returns the state
    unchanged, throws nothing and arms no second tick source — and along
    every operation sequence from a fresh animator at most one interval
    registration is ever live. -/
theorem c6_play_idempotent_single_timer
    (a : Animator Nat) (o : PlayOptions) (ops : List (Op Nat))
    (h : a.currentlyPlaying = true) :
    (a.play o = (a, none))
    ∧ ((applyOps (createAnimator Nat) ops).activeIntervals.length ≤ 1) := by
  constructor
  · simp [Animator.play, h]
  · exact (timerInv_applyOps ops _ (timerInv_createAnimator Nat)).1

/-- Witness for C6: a second `play` on the playing `demoPlaying` changes
    nothing, and a concrete operation run from a fresh animator never has
    more than one live interval. -/
theorem c6_witness :
    (demoPlaying.play ⟨true⟩ = (demoPlaying, none))
    ∧ ((applyOps (createAnimator Nat)
        [Op.addScene demoScene, Op.play ⟨false⟩, Op.play ⟨true⟩, Op.tick,
         Op.tick, Op.pause, Op.play ⟨false⟩]).activeIntervals.length ≤ 1) :=
  c6_play_idempotent_single_timer demoPlaying ⟨true⟩
    [Op.addScene demoScene, Op.play ⟨false⟩, Op.play ⟨true⟩, Op.tick,
     Op.tick, Op.pause, Op.play ⟨false⟩] (by decide)

/-- C7.  The looping flag is sticky: once `true` it survives every following
    operation other than `reset`; a `play` that executes (scheduler not
    already playing) with `loop = true` sets it; `loop` is exactly `play`
    with the `loop` option forced to `true`; and `reset` clears the flag
    (the deletions in `_resetAnimator` precede the throw). -/
theorem c7_looping_sticky_until_reset
    (a b c : Animator Nat) (o p : PlayOptions) (ops : List (Op Nat))
    (hl : a.looping = true)
    (hnr : ∀ x ∈ ops, x ≠ Op.reset)
    (hb : b.currentlyPlaying = false)
    (ho : o.loop = true) :
    ((applyOps a ops).looping = true)
    ∧ (((b.play o).1).looping = true)
    ∧ (c.loop p = c.play { p with loop := true })
    ∧ (((c.reset).1).looping = false) := by
  refine ⟨looping_applyOps ops a hl hnr, ?_, rfl, rfl⟩
  obtain ⟨_, _, _, _, _, _, f7⟩ := initForPlay_frame b o
  rcases hi : initForPlay b o with ⟨b1, e⟩
  rw [hi] at f7
  dsimp only at f7
  unfold Animator.play
  rw [hb, hi]
  cases e <;> simp [startFrameTimer, f7, ho]

/-- Witness for C7: the looping animator `demoLooping` stays looping through
    a pause, a resume and a tick; `play` with `loop = true` on the idle
    `demoAnimator` sets the flag; `loop` equals `play` with `loop` forced;
    `reset` clears the flag. -/
theorem c7_witness :
    ((applyOps demoLooping [Op.pause, Op.play ⟨false⟩, Op.tick]).looping = true)
    ∧ (((demoAnimator.play ⟨true⟩).1).looping = true)
    ∧ (demoAnimator.loop ⟨false⟩ = demoAnimator.play ⟨true⟩)
    ∧ (((demoAnimator.reset).1).looping = false) :=
  c7_looping_sticky_until_reset demoLooping demoAnimator demoAnimator
    ⟨true⟩ ⟨false⟩ [Op.pause, Op.play ⟨false⟩, Op.tick]
    (by decide) (by decide) (by decide) (by decide)

/-- C8.  Playback never mutates the registered scene list: any sequence of
    play/loop/pause/reset/tick operations leaves `scenes` exactly as
    registered, and neither allocates nor frees a single scene object
    (the heap size is constant) — loop restarts and the working queue reuse
    the very same scene references, not copies. -/
theorem c8_scenes_never_mutated_by_playback
    (a : Animator Nat) (ops : List (Op Nat))
    (hpb : ∀ o ∈ ops, o.isPlayback = true) :
    ((applyOps a ops).scenes = a.scenes)
    ∧ ((applyOps a ops).store.length = a.store.length) :=
  playback_applyOps ops a hpb

/-- Witness for C8: a concrete playback run over `demoPlaying` — ticks,
    pause, resume, reset, loop, tick — keeps the scene list `[0]` and the
    one-object heap intact. -/
theorem c8_witness :
    ((applyOps demoPlaying
        [Op.tick, Op.pause, Op.play ⟨false⟩, Op.tick, Op.reset,
         Op.loop ⟨false⟩, Op.tick]).scenes = demoPlaying.scenes)
    ∧ ((applyOps demoPlaying
        [Op.tick, Op.pause, Op.play ⟨false⟩, Op.tick, Op.reset,
         Op.loop ⟨false⟩, Op.tick]).store.length = demoPlaying.store.length) :=
  c8_scenes_never_mutated_by_playback demoPlaying
    [Op.tick, Op.pause, Op.play ⟨false⟩, Op.tick, Op.reset,
     Op.loop ⟨false⟩, Op.tick] (by decide)

/-- C9.  `play()` (and `loop()`) on a scheduler whose scene list is empty
    throws while initializing playback: `_initForPlay` shifts `undefined`
    out of the empty fresh queue into the current scene and then invokes
    its `timeElapsed` accessor — a `TypeError` — so the call is neither a
    no-op nor does it arm an idle tick source. -/
theorem c9_play_on_empty_scene_list_throws
    (a : Animator Nat) (o : PlayOptions)
    (h1 : a.scenes = []) (h2 : a.currentlyPlaying = false)
    (h3 : a.currentScene = none) (h4 : a.remainingScenes = none) :
    ((a.play o).2 = some JsError.typeErrorUndefined)
    ∧ ((a.play o).1.activeIntervals = a.activeIntervals)
    ∧ ((a.play o).1.currentScene = none)
    ∧ ((a.loop o).2 = some JsError.typeErrorUndefined) := by
  refine ⟨?_, ?_, ?_, ?_⟩ <;>
    simp [Animator.play, Animator.loop, initForPlay, shiftIfAbsent,
          h1, h2, h3, h4]

/-- Witness for C9: `play` and `loop` on a freshly constructed animator
    with no scenes throw a `TypeError` and arm no interval. -/
theorem c9_witness :
    (((createAnimator Nat).play ⟨false⟩).2 = some JsError.typeErrorUndefined)
    ∧ (((createAnimator Nat).play ⟨false⟩).1.activeIntervals
        = (createAnimator Nat).activeIntervals)
    ∧ (((createAnimator Nat).play ⟨false⟩).1.currentScene = none)
    ∧ (((createAnimator Nat).loop ⟨false⟩).2 = some JsError.typeErrorUndefined) :=
  c9_play_on_empty_scene_list_throws (createAnimator Nat) ⟨false⟩
    rfl rfl rfl rfl

/-- C10.  A Scene constructed without a duration option ends up with
    `duration()` returning `undefined`, not the initial default `0`: the
    constructor unconditionally calls the duration setter with the absent
    option value, overwriting the `0` the accessor was initialized with. -/
theorem c10_missing_duration_overwrites_default :
    ((createScene ⟨none⟩ : Scene Nat).duration = none)
    ∧ (initDurationValue = some 0)
    ∧ ((createScene ⟨none⟩ : Scene Nat).duration ≠ initDurationValue) := by
  exact ⟨by decide, by decide, by decide⟩

end CandidCanvas
